import Mathlib

/-!
Verification development for the BigChickenEngine scene editor.

The Python sources under src/ are shallowly embedded here:

* `core/scene_loader.py` — `SceneObject` (mesh aggregate with proxied
  position / scale / rotation / alpha) and `save_scene`;
* `core/dev_mode.py` — `DevMode.spawn_at`, `DevMode.delete_selected`,
  `DevMode.handle_movement_keys`;
* `core/obj_exporter.py` — `export_folder_to_obj`;
* `core/raycaster.py` — `screen_to_floor`, `_ray_sphere_test`,
  `_pick_from_ray`.

Numeric values are embedded over an arbitrary linear ordered field `K`
(exact-field semantics for Python's float arithmetic); the parts of the
raycaster that need a square root are fixed at `K = ℝ` with `Real.sqrt`.
Stateful Python methods become explicit state-passing functions; Python
exceptions and `None` results become `Option`.
-/

/-- Embedding of `glm.vec3`: a 3-component vector. -/
structure Vec3 (K : Type) where
  x : K
  y : K
  z : K
  deriving DecidableEq, Repr

/-- Embedding of `glm.quat`: a quaternion (w, x, y, z). -/
structure Quat (K : Type) where
  w : K
  x : K
  y : K
  z : K
  deriving DecidableEq, Repr

namespace Vec3

variable {K : Type} [Field K]

/-- Componentwise vector addition (`glm.vec3 + glm.vec3`). -/
def add (a b : Vec3 K) : Vec3 K := ⟨a.x + b.x, a.y + b.y, a.z + b.z⟩

/-- Componentwise vector subtraction. -/
def sub (a b : Vec3 K) : Vec3 K := ⟨a.x - b.x, a.y - b.y, a.z - b.z⟩

/-- Scalar multiple of a vector (`vec * scalar`). -/
def smul (c : K) (a : Vec3 K) : Vec3 K := ⟨c * a.x, c * a.y, c * a.z⟩

/-- Dot product (`glm.dot`). -/
def dot (a b : Vec3 K) : K := a.x * b.x + a.y * b.y + a.z * b.z

instance : Add (Vec3 K) := ⟨add⟩
instance : Sub (Vec3 K) := ⟨sub⟩
instance : SMul K (Vec3 K) := ⟨smul⟩

end Vec3

/-- The identity quaternion, `glm.quat()` — the default `Transform.rotation`. -/
def quatIdentity {K : Type} [Field K] : Quat K := ⟨1, 0, 0, 0⟩

/-- Embedding of `Transform` (src/core/transform.py): position, rotation,
scale of one mesh.  Defaults (position 0, identity rotation, scale 1)
are the ones `Transform.__init__` fills in. -/
structure Transform (K : Type) where
  position : Vec3 K
  rotation : Quat K
  scale : Vec3 K
  deriving DecidableEq, Repr

/-- Geometry read back from a mesh for export
(`_extract_mesh_data` in src/core/obj_exporter.py): world-space
positions and normals, uvs, and a flat triangle-index list.  The GPU
buffer read and the model-matrix application are I/O against the
graphics context, so the extracted result is modelled as data carried
by the mesh: `none` embeds the `(None, None, None, None)` failure
returns (unreadable VBO or a non 8-float vertex layout). -/
structure MeshData (K : Type) where
  positions : List (Vec3 K)
  normals : List (Vec3 K)
  uvs : List (K × K)
  faces : List ℕ
  deriving DecidableEq, Repr

/-- Embedding of one mesh (Cube / Triangle / LightOrb / ModelMesh from
src/scene.py and src/core/model_mesh.py) as far as the core logic reads
it: its `transform`, its `alpha`, its `color`, and the export geometry
(see `MeshData`).  GPU buffers and shader programs are not modelled. -/
structure Mesh (K : Type) where
  transform : Transform K
  alpha : K
  color : Vec3 K
  extracted : Option (MeshData K)
  deriving DecidableEq, Repr

/-- Embedding of `SceneObject.__init__` fields (src/core/scene_loader.py).
`alphaVal` is the private `_alpha` attribute. -/
structure SceneObject (K : Type) where
  name : String
  model_path : String
  format : String
  meshes : List (Mesh K)
  is_light : Bool
  light_intensity : K
  light_color : Vec3 K
  alphaVal : K
  folder : String
  deriving DecidableEq, Repr

namespace SceneObject

variable {K : Type} [LinearOrderedField K]

/-- `SceneObject.__init__(name, model_path, fmt, meshes, ...)`: stores the
fields and applies the initial alpha to all meshes (`m.alpha = self._alpha`). -/
def make (name model_path fmt : String) (meshes : List (Mesh K))
    (is_light : Bool) (light_intensity : K) (light_color : Vec3 K)
    (alpha : K) (folder : String) : SceneObject K :=
  ⟨name, model_path, fmt, meshes.map (fun m => { m with alpha := alpha }),
   is_light, light_intensity, light_color, alpha, folder⟩

/-- The `position` property getter: the first mesh's transform position,
or `glm.vec3(0)` when the object has no meshes. -/
def positionGet (o : SceneObject K) : Vec3 K :=
  match o.meshes with
  | [] => ⟨0, 0, 0⟩
  | m :: _ => m.transform.position

/-- The `position` property setter: broadcasts the value to every mesh. -/
def positionSet (o : SceneObject K) (v : Vec3 K) : SceneObject K :=
  { o with meshes :=
      o.meshes.map (fun m => { m with transform := { m.transform with position := v } }) }

/-- The `scale` property getter: the first mesh's transform scale,
or `glm.vec3(1)` when the object has no meshes. -/
def scaleGet (o : SceneObject K) : Vec3 K :=
  match o.meshes with
  | [] => ⟨1, 1, 1⟩
  | m :: _ => m.transform.scale

/-- The `scale` property setter: broadcasts the value to every mesh. -/
def scaleSet (o : SceneObject K) (v : Vec3 K) : SceneObject K :=
  { o with meshes :=
      o.meshes.map (fun m => { m with transform := { m.transform with scale := v } }) }

/-- The `rotation` property getter: the first mesh's transform rotation,
or the identity quaternion `glm.quat()` when the object has no meshes. -/
def rotationGet (o : SceneObject K) : Quat K :=
  match o.meshes with
  | [] => quatIdentity
  | m :: _ => m.transform.rotation

/-- The `alpha` property getter: returns the private `_alpha`. -/
def alphaGet (o : SceneObject K) : K := o.alphaVal

/-- The `alpha` property setter: clamps the value to `[0, 1]`
(`max(0.0, min(1.0, value))`) and applies it to every mesh. -/
def alphaSet (o : SceneObject K) (value : K) : SceneObject K :=
  { o with
    alphaVal := max 0 (min 1 value),
    meshes := o.meshes.map (fun m => { m with alpha := max 0 (min 1 value) }) }

end SceneObject

/-! ### Scene persistence (src/core/scene_loader.py: `save_scene`, `load_scene`) -/

/-- Python's built-in `round` to an integer: round half to even
(banker's rounding, per the Python documentation of `round`). -/
def pyRoundInt {K : Type} [LinearOrderedField K] [FloorRing K] (q : K) : ℤ :=
  let f := ⌊q⌋
  if q - f < 1/2 then f
  else if 1/2 < q - f then f + 1
  else if f % 2 = 0 then f else f + 1

/-- Python's `round(q, n)`: round to `n` decimal places, half to even. -/
def pyRound {K : Type} [LinearOrderedField K] [FloorRing K] (n : ℕ) (q : K) : K :=
  (pyRoundInt (q * 10 ^ n) : K) / 10 ^ n

/-- Round each component of a vector to `n` decimal places. -/
def pyRoundVec {K : Type} [LinearOrderedField K] [FloorRing K]
    (n : ℕ) (v : Vec3 K) : Vec3 K :=
  ⟨pyRound n v.x, pyRound n v.y, pyRound n v.z⟩

/-- One object entry of the JSON document produced by `save_scene`
(src/core/scene_loader.py).  `Option` fields embed JSON keys that the
code writes only conditionally. -/
structure SavedEntry (K : Type) where
  name : String
  format : String
  position : Vec3 K
  rotation : Vec3 K
  scale : Vec3 K
  model : Option String
  color : Option (Vec3 K)
  intensity : Option K
  alpha : Option K
  folder : Option String
  deriving DecidableEq, Repr

/-- The entry `save_scene` writes for one `SceneObject`: rounded position
(3 decimals) and scale (4 decimals), rotation always `[0,0,0]`; `model`
only for non-primitive formats; `color` from the first mesh for
cube/triangle and (overwriting) from `light_color` for lights, together
with `intensity`; `alpha` only when `< 1.0`; `folder` only when not
`"Scene"`. -/
def saveEntry {K : Type} [LinearOrderedField K] [FloorRing K]
    (o : SceneObject K) : SavedEntry K :=
  { name := o.name
    format := o.format
    position := pyRoundVec 3 (o.positionGet)
    rotation := ⟨0, 0, 0⟩
    scale := pyRoundVec 4 (o.scaleGet)
    model := if ¬(o.format = "cube" ∨ o.format = "triangle" ∨ o.format = "light")
             then some o.model_path else none
    color :=
      if o.is_light then some (pyRoundVec 3 o.light_color)
      else
        match o.meshes with
        | [] => none
        | m :: _ =>
          if o.format = "cube" ∨ o.format = "triangle" then some (pyRoundVec 3 m.color)
          else none
    intensity := if o.is_light then some o.light_intensity else none
    alpha := if o.alphaGet < 1 then some (pyRound 3 o.alphaGet) else none
    folder := if o.folder ≠ "Scene" then some o.folder else none }

/-- `save_scene`: the list of entries written to the JSON file. -/
def save_scene {K : Type} [LinearOrderedField K] [FloorRing K]
    (scene_objects : List (SceneObject K)) : List (SavedEntry K) :=
  scene_objects.map saveEntry

/-- The alpha `load_scene` hands to the reconstructed `SceneObject`:
`entry.get('alpha', 1.0)`. -/
def loadedAlpha {K : Type} [Field K] (e : SavedEntry K) : K :=
  e.alpha.getD 1

/-- `glm.radians`: degrees to radians. -/
noncomputable def radiansR (deg : ℝ) : ℝ := deg * Real.pi / 180

/-- `glm.quat(glm.vec3(rx, ry, rz))`: quaternion from XYZ Euler angles
(radians), built from half-angle sines and cosines. -/
noncomputable def quatFromEulerRad (rx ry rz : ℝ) : Quat ℝ :=
  let cx := Real.cos (rx / 2); let sx := Real.sin (rx / 2)
  let cy := Real.cos (ry / 2); let sy := Real.sin (ry / 2)
  let cz := Real.cos (rz / 2); let sz := Real.sin (rz / 2)
  ⟨cx * cy * cz + sx * sy * sz,
   sx * cy * cz - cx * sy * sz,
   cx * sy * cz + sx * cy * sz,
   cx * cy * sz - sx * sy * cz⟩

/-- The rotation a freshly loaded object carries after `load_scene`
processes an entry with rotation triple `rot`: the meshes are constructed
with the default identity rotation, and `set_rotation_euler(*rot)`
(degrees, converted with `glm.radians`) runs only when
`any(r != 0 for r in rot)`. -/
noncomputable def loadedRotation (rot : Vec3 ℝ) : Quat ℝ :=
  if rot.x ≠ 0 ∨ rot.y ≠ 0 ∨ rot.z ≠ 0 then
    quatFromEulerRad (radiansR rot.x) (radiansR rot.y) (radiansR rot.z)
  else quatIdentity

/-! ### Dev mode (src/core/dev_mode.py) -/

/-- A fresh primitive mesh as constructed by `Mesh.__init__`
(src/mesh.py): default transform, `alpha = 1.0`, the given color.
The GPU-side buffers are not modelled (`extracted := none`). -/
def freshMesh {K : Type} [LinearOrderedField K] (color : Vec3 K) : Mesh K :=
  { transform := { position := ⟨0, 0, 0⟩, rotation := quatIdentity, scale := ⟨1, 1, 1⟩ }
    alpha := 1
    color := color
    extracted := none }

/-- The state of `DevMode.__init__`: naming counters and speeds
(`move_speed = 2.0`, `scale_speed = 1.5`). -/
structure DevMode (K : Type) where
  cube_counter : ℕ
  tri_counter : ℕ
  light_counter : ℕ
  move_speed : K
  scale_speed : K
  deriving DecidableEq, Repr

/-- `DevMode()`: counters start at 0, `move_speed = 2.0`, `scale_speed = 1.5`. -/
def DevMode.init {K : Type} [LinearOrderedField K] : DevMode K :=
  ⟨0, 0, 0, 2, 3/2⟩

/-- `DevMode.spawn_at(ctx, obj_type, position, scene_objects, ...)`:
creates a primitive mesh for a recognised `obj_type` (bumping the
matching counter and naming the object `cube_N` / `tri_N` / `light_N`),
places it at `position` with `y + 0.5`, wraps it in a `SceneObject`
appended to the scene, and returns the new index `len - 1`.  An
unrecognised type returns `-1` with nothing changed.  The GPU context,
the renderable-list rebuild callback, and the editor-UI cache reset are
side effects outside the scene state and are not modelled. -/
def DevMode.spawn_at {K : Type} [LinearOrderedField K]
    (dm : DevMode K) (obj_type : String) (position : Vec3 K)
    (scene_objects : List (SceneObject K)) :
    DevMode K × List (SceneObject K) × ℤ :=
  let made : Option (DevMode K × String × Mesh K × String) :=
    if obj_type = "cube" then
      some ({ dm with cube_counter := dm.cube_counter + 1 },
            "cube_" ++ toString (dm.cube_counter + 1),
            freshMesh ⟨49/100, 48/100, 1⟩, "cube")
    else if obj_type = "triangle" then
      some ({ dm with tri_counter := dm.tri_counter + 1 },
            "tri_" ++ toString (dm.tri_counter + 1),
            freshMesh ⟨1, 4/10, 2/10⟩, "triangle")
    else if obj_type = "light" then
      some ({ dm with light_counter := dm.light_counter + 1 },
            "light_" ++ toString (dm.light_counter + 1),
            freshMesh ⟨1, 1, 9/10⟩, "light")
    else none
  match made with
  | none => (dm, scene_objects, -1)
  | some (dm', name, mesh, fmt) =>
    let spawn_pos : Vec3 K := ⟨position.x, position.y + 1/2, position.z⟩
    let mesh' := { mesh with transform :=
      { mesh.transform with position := spawn_pos, scale := ⟨1, 1, 1⟩ } }
    let is_light := obj_type = "light"
    let obj := SceneObject.make name "" fmt [mesh'] is_light 1 ⟨1, 1, 9/10⟩ 1 "Scene"
    (dm', scene_objects ++ [obj], (scene_objects.length : ℤ))

/-- `DevMode.delete_selected(scene_objects, selected_index, ...)`:
returns the (unchanged scene, same index) for a negative index; otherwise
destroys the meshes of `scene_objects[selected_index]`, pops it, and
returns the remaining scene with index `-1`.  Indexing past the end of
the list raises `IndexError` in Python, embedded as `none`. -/
def DevMode.delete_selected {K : Type}
    (scene_objects : List (SceneObject K)) (selected_index : ℤ) :
    Option (List (SceneObject K) × ℤ) :=
  if selected_index < 0 then some (scene_objects, selected_index)
  else if selected_index.toNat < scene_objects.length then
    some (scene_objects.eraseIdx selected_index.toNat, -1)
  else none

/-- The keys `DevMode.handle_movement_keys` reads from
`pygame.key.get_pressed()`. -/
structure Keys where
  up : Bool
  down : Bool
  left : Bool
  right : Bool
  q : Bool
  e : Bool
  equals : Bool
  plus : Bool
  minus : Bool
  k1 : Bool
  k2 : Bool
  k3 : Bool
  deriving DecidableEq, Repr

/-- The position block of `handle_movement_keys`: the arrow / Q / E
`if` statements, each shifting one component by `move_speed * dt`. -/
def movedPosition {K : Type} [LinearOrderedField K]
    (dm : DevMode K) (dt : K) (keys : Keys) (pos0 : Vec3 K) : Vec3 K :=
  let move := dm.move_speed * dt
  let pos1 := if keys.up then { pos0 with z := pos0.z - move } else pos0
  let pos2 := if keys.down then { pos1 with z := pos1.z + move } else pos1
  let pos3 := if keys.left then { pos2 with x := pos2.x - move } else pos2
  let pos4 := if keys.right then { pos3 with x := pos3.x + move } else pos3
  let pos5 := if keys.q then { pos4 with y := pos4.y - move } else pos4
  if keys.e then { pos5 with y := pos5.y + move } else pos5

/-- The scaling block of `handle_movement_keys`: when `+`/`=` or `-` is
held, pick the factor (`1 + scale_speed*dt` growing;
`max(1 - scale_speed*dt, 0.01)` shrinking) and apply it to the axis
selected by a held digit key 1 / 2 / 3, or to all three axes. -/
def scaledScale {K : Type} [LinearOrderedField K]
    (dm : DevMode K) (dt : K) (keys : Keys) (scl0 : Vec3 K) : Vec3 K :=
  let scaling_up := keys.equals || keys.plus
  let scaling_down := keys.minus
  if scaling_up || scaling_down then
    let factor :=
      if scaling_up then 1 + dm.scale_speed * dt
      else max (1 - dm.scale_speed * dt) (1/100)
    if keys.k1 then { scl0 with x := scl0.x * factor }
    else if keys.k2 then { scl0 with y := scl0.y * factor }
    else if keys.k3 then { scl0 with z := scl0.z * factor }
    else ⟨scl0.x * factor, scl0.y * factor, scl0.z * factor⟩
  else scl0

/-- `DevMode.handle_movement_keys(dt, scene_objects, selected_index)`:
no-op when the index is out of range; otherwise shifts the selected
object's position along the held movement keys (`movedPosition`) and
rescales it along the held scaling keys (`scaledScale`), writing both
back through the broadcasting `SceneObject` setters. -/
def DevMode.handle_movement_keys {K : Type} [LinearOrderedField K]
    (dm : DevMode K) (dt : K) (keys : Keys)
    (scene_objects : List (SceneObject K)) (selected_index : ℤ) :
    List (SceneObject K) :=
  if selected_index < 0 ∨ (scene_objects.length : ℤ) ≤ selected_index then
    scene_objects
  else
    match scene_objects[selected_index.toNat]? with
    | none => scene_objects
    | some obj =>
      scene_objects.set selected_index.toNat
        ((obj.positionSet (movedPosition dm dt keys obj.positionGet)).scaleSet
          (scaledScale dm dt keys obj.scaleGet))

/-! ### OBJ export (src/core/obj_exporter.py) -/

/-- One line of the OBJ text written by `export_folder_to_obj`:
a `#` comment, a blank line, an `o <name>` group line, a vertex /
normal / uv line, or a triangle face line whose corners are
`v/vt/vn` index triples. -/
inductive ObjLine (K : Type) where
  | comment (s : String)
  | blank
  | group (s : String)
  | v (p : Vec3 K)
  | vn (p : Vec3 K)
  | vt (u : K × K)
  | face (a b c : ℕ × ℕ × ℕ)
  deriving DecidableEq, Repr

/-- The complete triples `(faces[i], faces[i+1], faces[i+2])` visited by
the exporter's `for i in range(0, len(faces), 3)` face loop. -/
def faceTriples : List ℕ → List (ℕ × ℕ × ℕ)
  | a :: b :: c :: rest => (a, b, c) :: faceTriples rest
  | _ => []

/-- The lines the exporter writes for one mesh, threading the global
1-based cumulative `(v_offset, vn_offset, vt_offset)` counters.  A mesh
whose data could not be extracted (see `MeshData`) is skipped. -/
def meshLines {K : Type} (offs : ℕ × ℕ × ℕ) (m : Mesh K) :
    List (ObjLine K) × (ℕ × ℕ × ℕ) :=
  match m.extracted with
  | none => ([], offs)
  | some d =>
    let (vo, vno, vto) := offs
    let n := d.positions.length
    (d.positions.map ObjLine.v
       ++ d.normals.map ObjLine.vn
       ++ d.uvs.map ObjLine.vt
       ++ (faceTriples d.faces).map (fun t =>
            ObjLine.face (t.1 + vo, t.1 + vto, t.1 + vno)
                         (t.2.1 + vo, t.2.1 + vto, t.2.1 + vno)
                         (t.2.2 + vo, t.2.2 + vto, t.2.2 + vno)),
     (vo + n, vno + n, vto + n))

/-- The exporter's inner loop over `obj.meshes`. -/
def meshesLines {K : Type} (offs : ℕ × ℕ × ℕ) :
    List (Mesh K) → List (ObjLine K) × (ℕ × ℕ × ℕ)
  | [] => ([], offs)
  | m :: rest =>
    let (ls, offs') := meshLines offs m
    let (ls2, offs'') := meshesLines offs' rest
    (ls ++ ls2, offs'')

/-- The lines for one folder object: its `o <name>` group line, its
meshes' lines, and the trailing blank line. -/
def objectLines {K : Type} (offs : ℕ × ℕ × ℕ) (o : SceneObject K) :
    List (ObjLine K) × (ℕ × ℕ × ℕ) :=
  let (ls, offs') := meshesLines offs o.meshes
  (ObjLine.group o.name :: ls ++ [ObjLine.blank], offs')

/-- The exporter's outer loop over the folder's objects. -/
def objectsLines {K : Type} (offs : ℕ × ℕ × ℕ) :
    List (SceneObject K) → List (ObjLine K)
  | [] => []
  | o :: rest =>
    let (ls, offs') := objectLines offs o
    ls ++ objectsLines offs' rest

/-- `export_folder_to_obj(folder_name, scene_objects, ...)`: collects the
non-light objects whose `folder` equals `folder_name`; returns `none`
(no file is written) when there are none, else the lines of the written
file — two header comments and a blank line, then each object's group.
Directory creation and the final file write are I/O and are modelled by
the returned line list. -/
def export_folder_to_obj {K : Type} (folder_name : String)
    (scene_objects : List (SceneObject K)) : Option (List (ObjLine K)) :=
  let folder_objects := scene_objects.filter
    (fun o => o.folder = folder_name ∧ o.is_light = false)
  if folder_objects.isEmpty then none
  else some
    ([ObjLine.comment ("BigChicken Engine - exported folder " ++ folder_name),
      ObjLine.comment ("Objects: " ++ toString folder_objects.length),
      ObjLine.blank]
     ++ objectsLines (1, 1, 1) folder_objects)

/-- The name carried by an `o <name>` group line, if the line is one. -/
def groupNameOf {K : Type} : ObjLine K → Option String
  | ObjLine.group s => some s
  | _ => none

/-! ### Raycasting (src/core/raycaster.py)

The world-space ray is built from the camera's matrices (`pick_object`
uses the camera position and front vector; `screen_to_floor` and
`pick_object_from_screen` unproject a pixel through the inverted
projection and view matrices).  Every such construction yields some
ray `(ray_origin, ray_dir)`; the definitions below embed what the code
does with that ray, universally quantified over it. -/

/-- The floor-plane intersection tail of `screen_to_floor`: `None` when
`abs(ray_dir.y) < 1e-6` or when `t = -ray_origin.y / ray_dir.y` is
negative, else the point `ray_origin + ray_dir * t`. -/
noncomputable def screen_to_floor_from_ray (ray_origin ray_dir : Vec3 ℝ) :
    Option (Vec3 ℝ) :=
  if |ray_dir.y| < 1/1000000 then none
  else
    let t := -ray_origin.y / ray_dir.y
    if t < 0 then none
    else some (ray_origin + t • ray_dir)

/-- `_ray_sphere_test(ray_origin, ray_dir, center, radius)`: distance `t`
along the ray to the sphere, or `None` when the discriminant is negative
or the chosen root is not positive. -/
noncomputable def ray_sphere_test (ray_origin ray_dir center : Vec3 ℝ)
    (radius : ℝ) : Option ℝ :=
  let oc := ray_origin - center
  let a := Vec3.dot ray_dir ray_dir
  let b := 2 * Vec3.dot oc ray_dir
  let c := Vec3.dot oc oc - radius * radius
  let disc := b * b - 4 * a * c
  if disc < 0 then none
  else
    let sqrt_disc := Real.sqrt disc
    let t1 := (-b - sqrt_disc) / (2 * a)
    let t2 := (-b + sqrt_disc) / (2 * a)
    let t := if t1 > 0 then t1 else t2
    if t > 0 then some t else none

/-- The bounding-sphere radius `_pick_from_ray` derives from an object's
scale: `max(max(scl.x, scl.y, scl.z) * 50.0, 5.0)`. -/
noncomputable def pickRadius (obj : SceneObject ℝ) : ℝ :=
  max (max (max obj.scaleGet.x obj.scaleGet.y) obj.scaleGet.z * 50) 5

/-- The sphere test `_pick_from_ray` runs for one object: centered at the
object's (proxied) position with radius `pickRadius`. -/
noncomputable def pickHit (ray_origin ray_dir : Vec3 ℝ) (obj : SceneObject ℝ) :
    Option ℝ :=
  ray_sphere_test ray_origin ray_dir obj.positionGet (pickRadius obj)

/-- The loop of `_pick_from_ray`: `best_t`/`best_idx` accumulation over
the enumerated objects, `best_t` starting at `float('inf')` (embedded as
`⊤ : EReal`) and `best_idx` at `-1`; a hit strictly closer than `best_t`
replaces both. -/
noncomputable def pickAux (ray_origin ray_dir : Vec3 ℝ) :
    List (SceneObject ℝ) → EReal → ℤ → ℕ → ℤ
  | [], _, best_idx, _ => best_idx
  | obj :: rest, best_t, best_idx, i =>
    match pickHit ray_origin ray_dir obj with
    | some t =>
      if (t : EReal) < best_t then
        pickAux ray_origin ray_dir rest (t : EReal) (i : ℤ) (i + 1)
      else pickAux ray_origin ray_dir rest best_t best_idx (i + 1)
    | none => pickAux ray_origin ray_dir rest best_t best_idx (i + 1)

/-- `_pick_from_ray(ray_origin, ray_dir, scene_objects)`: index of the
closest object hit by the ray, or `-1`. -/
noncomputable def pick_from_ray (ray_origin ray_dir : Vec3 ℝ)
    (scene_objects : List (SceneObject ℝ)) : ℤ :=
  pickAux ray_origin ray_dir scene_objects ⊤ (-1) 0

/-! ### Theorems -/

theorem Vec3.add_def {K : Type} [Field K] (a b : Vec3 K) :
    a + b = ⟨a.x + b.x, a.y + b.y, a.z + b.z⟩ := rfl

theorem Vec3.sub_def {K : Type} [Field K] (a b : Vec3 K) :
    a - b = ⟨a.x - b.x, a.y - b.y, a.z - b.z⟩ := rfl

theorem Vec3.smul_def {K : Type} [Field K] (c : K) (a : Vec3 K) :
    c • a = ⟨c * a.x, c * a.y, c * a.z⟩ := rfl

/-- C3: for every scene object, regardless of its orientation, `save_scene`
writes the rotation of its JSON entry as `[0, 0, 0]`, and reloading that
entry leaves the object with the identity rotation — rotation is not
round-trip-stable. -/
theorem save_discards_rotation (obj : SceneObject ℝ) :
    (saveEntry obj).rotation = (⟨0, 0, 0⟩ : Vec3 ℝ) ∧
    loadedRotation (saveEntry obj).rotation = quatIdentity := by
  refine ⟨rfl, ?_⟩
  show loadedRotation ⟨0, 0, 0⟩ = quatIdentity
  unfold loadedRotation
  simp

/-- C6: reading `SceneObject.position` / `SceneObject.scale` returns the
first mesh's transform value; writing broadcasts the new value to every
mesh, and a position write leaves every mesh's scale untouched (and vice
versa), so each write re-establishes that all meshes agree on the written
component. -/
theorem position_scale_proxied {K : Type} [LinearOrderedField K]
    (obj : SceneObject K) (v w : Vec3 K) (h : obj.meshes ≠ []) :
    obj.positionGet = (obj.meshes.head h).transform.position ∧
    obj.scaleGet = (obj.meshes.head h).transform.scale ∧
    (∀ m ∈ (obj.positionSet v).meshes, m.transform.position = v) ∧
    (obj.positionSet v).meshes.map (fun m => m.transform.scale) =
      obj.meshes.map (fun m => m.transform.scale) ∧
    (∀ m ∈ (obj.scaleSet w).meshes, m.transform.scale = w) ∧
    (obj.scaleSet w).meshes.map (fun m => m.transform.position) =
      obj.meshes.map (fun m => m.transform.position) := by
  obtain ⟨n, mp, fmt, meshes, il, li, lc, av, fd⟩ := obj
  cases meshes with
  | nil => exact absurd rfl h
  | cons m ms =>
    refine ⟨rfl, rfl, ?_, ?_, ?_, ?_⟩
    · intro x hx
      simp only [SceneObject.positionSet, List.mem_map] at hx
      obtain ⟨y, _, rfl⟩ := hx
      rfl
    · simp [SceneObject.positionSet, List.map_map]
    · intro x hx
      simp only [SceneObject.scaleSet, List.mem_map] at hx
      obtain ⟨y, _, rfl⟩ := hx
      rfl
    · simp [SceneObject.scaleSet, List.map_map]

/-- Witness for C6 at a concrete two-mesh object. -/
theorem position_scale_proxied_witness :
    (⟨"pair", "", "cube",
      [⟨⟨⟨1, 2, 3⟩, ⟨1, 0, 0, 0⟩, ⟨2, 2, 2⟩⟩, 1, ⟨0, 0, 0⟩, none⟩,
       ⟨⟨⟨9, 9, 9⟩, ⟨1, 0, 0, 0⟩, ⟨3, 3, 3⟩⟩, 1, ⟨0, 0, 0⟩, none⟩],
      false, 1, ⟨1, 1, 1⟩, 1, "Scene"⟩ : SceneObject ℚ).positionGet = ⟨1, 2, 3⟩ ∧
    ∀ m ∈ ((⟨"pair", "", "cube",
      [⟨⟨⟨1, 2, 3⟩, ⟨1, 0, 0, 0⟩, ⟨2, 2, 2⟩⟩, 1, ⟨0, 0, 0⟩, none⟩,
       ⟨⟨⟨9, 9, 9⟩, ⟨1, 0, 0, 0⟩, ⟨3, 3, 3⟩⟩, 1, ⟨0, 0, 0⟩, none⟩],
      false, 1, ⟨1, 1, 1⟩, 1, "Scene"⟩ : SceneObject ℚ).positionSet ⟨4, 5, 6⟩).meshes,
      m.transform.position = ⟨4, 5, 6⟩ := by
  have h := position_scale_proxied
    (⟨"pair", "", "cube",
      [⟨⟨⟨1, 2, 3⟩, ⟨1, 0, 0, 0⟩, ⟨2, 2, 2⟩⟩, 1, ⟨0, 0, 0⟩, none⟩,
       ⟨⟨⟨9, 9, 9⟩, ⟨1, 0, 0, 0⟩, ⟨3, 3, 3⟩⟩, 1, ⟨0, 0, 0⟩, none⟩],
      false, 1, ⟨1, 1, 1⟩, 1, "Scene"⟩ : SceneObject ℚ)
    ⟨4, 5, 6⟩ ⟨7, 8, 9⟩ (by decide)
  exact ⟨h.1.trans (by decide), h.2.2.1⟩

/-- C10: a `SceneObject` without meshes reads position `(0,0,0)`, scale
`(1,1,1)` and the identity rotation; writing position or scale leaves the
object unchanged, and writing alpha updates no mesh.  All the involved
operations are total — nothing is raised. -/
theorem empty_object_behavior {K : Type} [LinearOrderedField K]
    (obj : SceneObject K) (h : obj.meshes = []) (v w : Vec3 K) (a : K) :
    obj.positionGet = ⟨0, 0, 0⟩ ∧ obj.scaleGet = ⟨1, 1, 1⟩ ∧
    obj.rotationGet = quatIdentity ∧
    obj.positionSet v = obj ∧ obj.scaleSet w = obj ∧
    (obj.alphaSet a).meshes = [] := by
  obtain ⟨n, mp, fmt, meshes, il, li, lc, av, fd⟩ := obj
  simp only at h
  subst h
  exact ⟨rfl, rfl, rfl, rfl, rfl, rfl⟩

/-- Witness for C10 at a concrete mesh-less object. -/
theorem empty_object_behavior_witness :
    (⟨"empty", "", "cube", [], false, 1, ⟨1, 1, 1⟩, 1, "Scene"⟩
      : SceneObject ℚ).positionGet = ⟨0, 0, 0⟩ ∧
    (⟨"empty", "", "cube", [], false, 1, ⟨1, 1, 1⟩, 1, "Scene"⟩
      : SceneObject ℚ).scaleGet = ⟨1, 1, 1⟩ ∧
    (⟨"empty", "", "cube", [], false, 1, ⟨1, 1, 1⟩, 1, "Scene"⟩
      : SceneObject ℚ).rotationGet = quatIdentity ∧
    (⟨"empty", "", "cube", [], false, 1, ⟨1, 1, 1⟩, 1, "Scene"⟩
      : SceneObject ℚ).positionSet ⟨1, 2, 3⟩ =
      ⟨"empty", "", "cube", [], false, 1, ⟨1, 1, 1⟩, 1, "Scene"⟩ ∧
    (⟨"empty", "", "cube", [], false, 1, ⟨1, 1, 1⟩, 1, "Scene"⟩
      : SceneObject ℚ).scaleSet ⟨4, 5, 6⟩ =
      ⟨"empty", "", "cube", [], false, 1, ⟨1, 1, 1⟩, 1, "Scene"⟩ ∧
    ((⟨"empty", "", "cube", [], false, 1, ⟨1, 1, 1⟩, 1, "Scene"⟩
      : SceneObject ℚ).alphaSet (1/2)).meshes = [] :=
  empty_object_behavior _ rfl ⟨1, 2, 3⟩ ⟨4, 5, 6⟩ (1/2)

/-- `round(0.5, 3)` in Python returns `0.5` exactly. -/
theorem pyRound_half {K : Type} [LinearOrderedField K] [FloorRing K] :
    pyRound 3 ((1 : K)/2) = 1/2 := by
  unfold pyRound pyRoundInt
  have h : ((1 : K)/2) * 10 ^ 3 = ((500 : ℤ) : K) := by norm_num
  rw [h, Int.floor_intCast]
  norm_num

/-- C7 (amended): for every scene object whose alpha is at most 1 —
which every alpha written through the clamping setter satisfies, as the
third conjunct records — `save_scene` omits the `alpha` JSON key exactly
when the alpha is `1.0`; it omits the `folder` key exactly when the
folder is `"Scene"` (unconditionally); and an alpha set to `0.5`
survives a save/load round trip. -/
theorem alpha_folder_default_omission {K : Type} [LinearOrderedField K]
    [FloorRing K] (obj : SceneObject K) (h : obj.alphaGet ≤ 1) :
    ((saveEntry obj).alpha = none ↔ obj.alphaGet = 1) ∧
    ((saveEntry obj).folder = none ↔ obj.folder = "Scene") ∧
    (∀ v : K, 0 ≤ (obj.alphaSet v).alphaGet ∧ (obj.alphaSet v).alphaGet ≤ 1) ∧
    loadedAlpha (saveEntry (obj.alphaSet (1/2))) = 1/2 := by
  refine ⟨?_, ?_, ?_, ?_⟩
  · have h1 : (saveEntry obj).alpha =
        if obj.alphaGet < 1 then some (pyRound 3 obj.alphaGet) else none := rfl
    rw [h1]
    split_ifs with hlt
    · simp [hlt.ne]
    · simp [le_antisymm h (not_lt.mp hlt)]
  · have h2 : (saveEntry obj).folder =
        if obj.folder ≠ "Scene" then some obj.folder else none := rfl
    rw [h2]
    split_ifs with hne
    · simp [hne]
    · simp [not_not.mp hne]
  · intro v
    constructor
    · exact le_max_left 0 _
    · exact max_le zero_le_one (min_le_left 1 v)
  · have ha : (obj.alphaSet (1/2)).alphaGet = 1/2 := by
      show max 0 (min 1 ((1 : K)/2)) = 1/2
      rw [min_eq_right (by norm_num : (1 : K)/2 ≤ 1),
          max_eq_right (by norm_num : (0 : K) ≤ 1/2)]
    have hlt : (obj.alphaSet (1/2)).alphaGet < 1 := by rw [ha]; norm_num
    have h3 : (saveEntry (obj.alphaSet (1/2))).alpha =
        if (obj.alphaSet (1/2)).alphaGet < 1
        then some (pyRound 3 (obj.alphaSet (1/2)).alphaGet) else none := rfl
    show ((saveEntry (obj.alphaSet (1/2))).alpha).getD 1 = 1/2
    rw [h3, if_pos hlt, ha, Option.getD_some, pyRound_half]

/-- Witness for C7 at a concrete object with alpha 1. -/
theorem alpha_folder_default_omission_witness :
    (saveEntry (⟨"box", "", "cube",
      [⟨⟨⟨0, 0, 0⟩, ⟨1, 0, 0, 0⟩, ⟨1, 1, 1⟩⟩, 1, ⟨0, 0, 0⟩, none⟩],
      false, 1, ⟨1, 1, 1⟩, 1, "Hidden"⟩ : SceneObject ℚ)).alpha = none ∧
    (saveEntry (⟨"box", "", "cube",
      [⟨⟨⟨0, 0, 0⟩, ⟨1, 0, 0, 0⟩, ⟨1, 1, 1⟩⟩, 1, ⟨0, 0, 0⟩, none⟩],
      false, 1, ⟨1, 1, 1⟩, 1, "Hidden"⟩ : SceneObject ℚ)).folder ≠ none ∧
    loadedAlpha (saveEntry ((⟨"box", "", "cube",
      [⟨⟨⟨0, 0, 0⟩, ⟨1, 0, 0, 0⟩, ⟨1, 1, 1⟩⟩, 1, ⟨0, 0, 0⟩, none⟩],
      false, 1, ⟨1, 1, 1⟩, 1, "Hidden"⟩ : SceneObject ℚ).alphaSet (1/2))) = 1/2 := by
  have h := alpha_folder_default_omission (⟨"box", "", "cube",
      [⟨⟨⟨0, 0, 0⟩, ⟨1, 0, 0, 0⟩, ⟨1, 1, 1⟩⟩, 1, ⟨0, 0, 0⟩, none⟩],
      false, 1, ⟨1, 1, 1⟩, 1, "Hidden"⟩ : SceneObject ℚ) (by decide)
  refine ⟨h.1.mpr rfl, ?_, h.2.2.2⟩
  intro hc
  exact absurd (h.2.1.mp hc) (by decide)

/-- Counterexample for C5 as stated: deleting at index 1 from a
one-object scene is not a no-op — `scene_objects[selected_index]` raises
`IndexError` (embedded as `none`) instead of returning the scene
unchanged with a sentinel. -/
theorem delete_beyond_end_raises :
    DevMode.delete_selected
      ([⟨"only", "", "cube",
         [⟨⟨⟨0, 0, 0⟩, ⟨1, 0, 0, 0⟩, ⟨1, 1, 1⟩⟩, 1, ⟨0, 0, 0⟩, none⟩],
         false, 1, ⟨1, 1, 1⟩, 1, "Scene"⟩] : List (SceneObject ℚ)) 1 = none := by
  decide

/-- C5 (amended): spawning an unrecognised object type leaves the dev
state and the scene untouched and returns `-1`; deleting with a negative
index is a no-op returning the index unchanged; deleting with an index
at or past the end of the scene raises `IndexError` (embedded `none`)
rather than being a no-op. -/
theorem spawn_delete_guards {K : Type} [LinearOrderedField K]
    (dm : DevMode K) (t : String) (p : Vec3 K)
    (objs objs2 objs3 : List (SceneObject K)) (i j : ℤ)
    (ht : t ≠ "cube" ∧ t ≠ "triangle" ∧ t ≠ "light")
    (hi : i < 0) (hj0 : 0 ≤ j) (hj : (objs3.length : ℤ) ≤ j) :
    DevMode.spawn_at dm t p objs = (dm, objs, -1) ∧
    DevMode.delete_selected objs2 i = some (objs2, i) ∧
    DevMode.delete_selected objs3 j = none := by
  refine ⟨?_, ?_, ?_⟩
  · unfold DevMode.spawn_at
    rw [if_neg ht.1, if_neg ht.2.1, if_neg ht.2.2]
  · unfold DevMode.delete_selected
    rw [if_pos hi]
  · unfold DevMode.delete_selected
    rw [if_neg (not_lt.mpr hj0), if_neg (by omega)]

/-- Witness for C5 (amended) at concrete inputs. -/
theorem spawn_delete_guards_witness :
    DevMode.spawn_at (DevMode.init : DevMode ℚ) "sphere" ⟨0, 0, 0⟩ [] =
      (DevMode.init, [], -1) ∧
    DevMode.delete_selected ([] : List (SceneObject ℚ)) (-1) = some ([], -1) ∧
    DevMode.delete_selected ([] : List (SceneObject ℚ)) 0 = none :=
  spawn_delete_guards DevMode.init "sphere" ⟨0, 0, 0⟩ [] [] [] (-1) 0
    (by refine ⟨?_, ?_, ?_⟩ <;> decide) (by decide) (by decide) (by decide)

/-- Writing position then scale through the broadcasting setters makes the
scale getter return the written scale, provided the object has a mesh. -/
theorem scaleGet_after_write {K : Type} [LinearOrderedField K]
    (o : SceneObject K) (p v : Vec3 K) (h : o.meshes ≠ []) :
    ((o.positionSet p).scaleSet v).scaleGet = v := by
  obtain ⟨n, mp, fmt, meshes, il, li, lc, av, fd⟩ := o
  cases meshes with
  | nil => exact absurd rfl h
  | cons m ms => rfl

/-- C4 (amended): one tick with `-` and the axis key `2` held (and no
conflicting `1`/`+`/`=` key) multiplies only the selected object's Y
scale by `max(1 - scale_speed*dt, 0.01)`, leaving X and Z unchanged; the
floor `0.01` applies to that multiplicative factor (so the factor, not
the resulting Y component, never drops below `0.01`). -/
theorem scale_down_y_only {K : Type} [LinearOrderedField K]
    (dm : DevMode K) (dt : K) (keys : Keys)
    (objs : List (SceneObject K)) (i : ℕ) (hi : i < objs.length)
    (hm : (objs.get ⟨i, hi⟩).meshes ≠ [])
    (hminus : keys.minus = true) (hk2 : keys.k2 = true)
    (hk1 : keys.k1 = false) (heq : keys.equals = false)
    (hplus : keys.plus = false) :
    ∃ hr : i < (DevMode.handle_movement_keys dm dt keys objs (i : ℤ)).length,
      ((DevMode.handle_movement_keys dm dt keys objs (i : ℤ)).get ⟨i, hr⟩).scaleGet =
        ⟨(objs.get ⟨i, hi⟩).scaleGet.x,
         (objs.get ⟨i, hi⟩).scaleGet.y * max (1 - dm.scale_speed * dt) (1/100),
         (objs.get ⟨i, hi⟩).scaleGet.z⟩ ∧
      (1 : K)/100 ≤ max (1 - dm.scale_speed * dt) (1/100) := by
  have hfun : DevMode.handle_movement_keys dm dt keys objs (i : ℤ) =
      objs.set i (((objs.get ⟨i, hi⟩).positionSet
          (movedPosition dm dt keys (objs.get ⟨i, hi⟩).positionGet)).scaleSet
        (scaledScale dm dt keys (objs.get ⟨i, hi⟩).scaleGet)) := by
    unfold DevMode.handle_movement_keys
    rw [if_neg (by omega : ¬((i : ℤ) < 0 ∨ (objs.length : ℤ) ≤ (i : ℤ)))]
    rw [Int.toNat_natCast, List.getElem?_eq_getElem hi]
    rfl
  have hscl : scaledScale dm dt keys (objs.get ⟨i, hi⟩).scaleGet =
      ⟨(objs.get ⟨i, hi⟩).scaleGet.x,
       (objs.get ⟨i, hi⟩).scaleGet.y * max (1 - dm.scale_speed * dt) (1/100),
       (objs.get ⟨i, hi⟩).scaleGet.z⟩ := by
    obtain ⟨ku, kd, kl, kr, kq, ke, keq, kpl, kmi, kx1, kx2, kx3⟩ := keys
    simp only at hminus hk2 hk1 heq hplus
    subst hminus hk2 hk1 heq hplus
    rfl
  rw [hfun, hscl]
  refine ⟨by simp [hi], ?_, le_max_right _ _⟩
  rw [List.get_eq_getElem]
  simp only [List.getElem_set_self]
  exact scaleGet_after_write _ _ _ hm

/-- Counterexample for C4 as stated: starting from Y scale exactly at the
claimed floor `0.01`, one shrink tick with `-` and `2` held (speeds as in
`DevMode.__init__`, `dt = 1/3`) multiplies Y by `1/2`, leaving `0.005`,
strictly below `0.01` — the floor constrains the factor, not the
resulting component. -/
theorem scale_down_y_floor_cex :
    ((DevMode.handle_movement_keys (⟨0, 0, 0, 2, 3/2⟩ : DevMode ℚ) (1/3)
        ⟨false, false, false, false, false, false, false, false, true, false, true, false⟩
        [⟨"box", "", "cube",
          [⟨⟨⟨0, 0, 0⟩, ⟨1, 0, 0, 0⟩, ⟨1, 1/100, 1⟩⟩, 1, ⟨0, 0, 0⟩, none⟩],
          false, 1, ⟨1, 1, 1⟩, 1, "Scene"⟩]
        0).map (fun o => o.scaleGet.y)).head? = some (1/200) ∧
    ((1 : ℚ)/200 < 1/100) ∧
    (⟨"box", "", "cube",
       [⟨⟨⟨0, 0, 0⟩, ⟨1, 0, 0, 0⟩, ⟨1, 1/100, 1⟩⟩, 1, ⟨0, 0, 0⟩, none⟩],
       false, 1, ⟨1, 1, 1⟩, 1, "Scene"⟩ : SceneObject ℚ).scaleGet.y = 1/100 := by
  refine ⟨?_, by norm_num, rfl⟩
  have hscl : scaledScale (⟨0, 0, 0, 2, 3/2⟩ : DevMode ℚ) (1/3)
      ⟨false, false, false, false, false, false, false, false, true, false, true, false⟩
      ⟨1, 1/100, 1⟩ = (⟨1, 1/200, 1⟩ : Vec3 ℚ) := by
    unfold scaledScale
    norm_num [max_def]
  have h1 : DevMode.handle_movement_keys (⟨0, 0, 0, 2, 3/2⟩ : DevMode ℚ) (1/3)
      ⟨false, false, false, false, false, false, false, false, true, false, true, false⟩
      [⟨"box", "", "cube",
        [⟨⟨⟨0, 0, 0⟩, ⟨1, 0, 0, 0⟩, ⟨1, 1/100, 1⟩⟩, 1, ⟨0, 0, 0⟩, none⟩],
        false, 1, ⟨1, 1, 1⟩, 1, "Scene"⟩]
      0 =
      [((⟨"box", "", "cube",
          [⟨⟨⟨0, 0, 0⟩, ⟨1, 0, 0, 0⟩, ⟨1, 1/100, 1⟩⟩, 1, ⟨0, 0, 0⟩, none⟩],
          false, 1, ⟨1, 1, 1⟩, 1, "Scene"⟩ : SceneObject ℚ).positionSet
            (movedPosition (⟨0, 0, 0, 2, 3/2⟩ : DevMode ℚ) (1/3)
              ⟨false, false, false, false, false, false, false, false, true, false, true, false⟩
              ⟨0, 0, 0⟩)).scaleSet
          (scaledScale (⟨0, 0, 0, 2, 3/2⟩ : DevMode ℚ) (1/3)
            ⟨false, false, false, false, false, false, false, false, true, false, true, false⟩
            ⟨1, 1/100, 1⟩)] := by
    unfold DevMode.handle_movement_keys
    rfl
  rw [h1, hscl]
  rfl

/-- Witness for C4 (amended) at the same concrete inputs. -/
theorem scale_down_y_only_witness :
    ∃ hr : 0 < (DevMode.handle_movement_keys (⟨0, 0, 0, 2, 3/2⟩ : DevMode ℚ) (1/3)
        ⟨false, false, false, false, false, false, false, false, true, false, true, false⟩
        [⟨"box", "", "cube",
          [⟨⟨⟨0, 0, 0⟩, ⟨1, 0, 0, 0⟩, ⟨1, 1/100, 1⟩⟩, 1, ⟨0, 0, 0⟩, none⟩],
          false, 1, ⟨1, 1, 1⟩, 1, "Scene"⟩]
        0).length,
      ((DevMode.handle_movement_keys (⟨0, 0, 0, 2, 3/2⟩ : DevMode ℚ) (1/3)
        ⟨false, false, false, false, false, false, false, false, true, false, true, false⟩
        [⟨"box", "", "cube",
          [⟨⟨⟨0, 0, 0⟩, ⟨1, 0, 0, 0⟩, ⟨1, 1/100, 1⟩⟩, 1, ⟨0, 0, 0⟩, none⟩],
          false, 1, ⟨1, 1, 1⟩, 1, "Scene"⟩]
        0).get ⟨0, hr⟩).scaleGet =
        ⟨1, (1/100) * max (1 - (3/2) * (1/3)) (1/100), 1⟩ ∧
      (1 : ℚ)/100 ≤ max (1 - (3/2) * (1/3)) (1/100) := by
  have h := scale_down_y_only (⟨0, 0, 0, 2, 3/2⟩ : DevMode ℚ) (1/3)
    ⟨false, false, false, false, false, false, false, false, true, false, true, false⟩
    [⟨"box", "", "cube",
      [⟨⟨⟨0, 0, 0⟩, ⟨1, 0, 0, 0⟩, ⟨1, 1/100, 1⟩⟩, 1, ⟨0, 0, 0⟩, none⟩],
      false, 1, ⟨1, 1, 1⟩, 1, "Scene"⟩]
    0 (by decide) (by decide) rfl rfl rfl rfl rfl
  exact h

/-- A mesh contributes no `o <name>` group lines. -/
theorem meshLines_no_groups {K : Type} (offs : ℕ × ℕ × ℕ) (m : Mesh K) :
    ((meshLines offs m).1).filterMap groupNameOf = [] := by
  obtain ⟨vo, vno, vto⟩ := offs
  cases hx : m.extracted with
  | none => simp [meshLines, hx]
  | some d =>
    simp [meshLines, hx, List.filterMap_append, List.filterMap_map,
      Function.comp, groupNameOf]

/-- A mesh list contributes no `o <name>` group lines. -/
theorem meshesLines_no_groups {K : Type} (l : List (Mesh K)) :
    ∀ offs, ((meshesLines offs l).1).filterMap groupNameOf = [] := by
  induction l with
  | nil => intro offs; simp [meshesLines]
  | cons m rest ih =>
    intro offs
    rcases hm : meshLines offs m with ⟨ls, offs'⟩
    rcases hr : meshesLines offs' rest with ⟨ls2, offs''⟩
    have h1 := meshLines_no_groups offs m
    have h2 := ih offs'
    rw [hm] at h1
    rw [hr] at h2
    simp [meshesLines, hm, hr, List.filterMap_append, h1, h2]

/-- The exporter's object loop emits exactly one `o <name>` group line per
object, in order. -/
theorem objectsLines_groups {K : Type} (l : List (SceneObject K)) :
    ∀ offs, (objectsLines offs l).filterMap groupNameOf =
      l.map (fun o => o.name) := by
  induction l with
  | nil => intro offs; simp [objectsLines]
  | cons o rest ih =>
    intro offs
    rcases hm : meshesLines offs o.meshes with ⟨ls, offs'⟩
    have h1 := meshesLines_no_groups o.meshes offs
    rw [hm] at h1
    simp [objectsLines, objectLines, hm, List.filterMap_append,
      List.filterMap_cons, groupNameOf, h1, ih offs']

/-- C8: export gathers exactly the non-light objects of the requested
folder: it returns `none` (writing no file) precisely when that
collection is empty, and otherwise the produced lines contain exactly
one `o <name>` group per collected object, in scene order. -/
theorem export_folder_spec {K : Type} (f : String)
    (objs : List (SceneObject K)) :
    (export_folder_to_obj f objs = none ↔
       objs.filter (fun o => o.folder = f ∧ o.is_light = false) = []) ∧
    (∀ L, export_folder_to_obj f objs = some L →
       L.filterMap groupNameOf =
         (objs.filter (fun o => o.folder = f ∧ o.is_light = false)).map
           (fun o => o.name)) := by
  constructor
  · unfold export_folder_to_obj
    dsimp only
    split_ifs with h
    · simpa using h
    · simp only [List.isEmpty_iff] at h
      exact iff_of_false (by simp) h
  · intro L hL
    unfold export_folder_to_obj at hL
    dsimp only at hL
    split_ifs at hL with h
    injection hL with hL
    subst hL
    simp [List.filterMap_cons, List.filterMap_append, groupNameOf,
      objectsLines_groups]

/-- Witness for C8: a folder holding only a light exports to `none`; a
folder with one light and one cube exports exactly one group line. -/
theorem export_folder_spec_witness :
    export_folder_to_obj "Lights"
      ([⟨"lamp", "", "light",
         [⟨⟨⟨0, 0, 0⟩, ⟨1, 0, 0, 0⟩, ⟨1, 1, 1⟩⟩, 1, ⟨1, 1, 9/10⟩, none⟩],
         true, 1, ⟨1, 1, 9/10⟩, 1, "Lights"⟩] : List (SceneObject ℚ)) = none ∧
    List.filterMap groupNameOf
      ([ObjLine.comment "BigChicken Engine - exported folder Lights",
        ObjLine.comment "Objects: 1", ObjLine.blank,
        ObjLine.group "crate", ObjLine.blank] : List (ObjLine ℚ)) = ["crate"] := by
  constructor
  · exact (export_folder_spec "Lights" _).1.mpr (by decide)
  · have h := (export_folder_spec "Lights"
      ([⟨"lamp", "", "light",
          [⟨⟨⟨0, 0, 0⟩, ⟨1, 0, 0, 0⟩, ⟨1, 1, 1⟩⟩, 1, ⟨1, 1, 9/10⟩, none⟩],
          true, 1, ⟨1, 1, 9/10⟩, 1, "Lights"⟩,
        ⟨"crate", "", "cube",
          [⟨⟨⟨0, 0, 0⟩, ⟨1, 0, 0, 0⟩, ⟨1, 1, 1⟩⟩, 1, ⟨1, 1, 1⟩, none⟩],
          false, 1, ⟨1, 1, 1⟩, 1, "Lights"⟩] : List (SceneObject ℚ))).2
      ([ObjLine.comment "BigChicken Engine - exported folder Lights",
        ObjLine.comment "Objects: 1", ObjLine.blank,
        ObjLine.group "crate", ObjLine.blank] : List (ObjLine ℚ)) (by decide)
    exact h.trans (by decide)

/-- C2: the floor raycast fails exactly when the ray direction is within
`1e-6` of horizontal or the plane parameter `t = -origin.y / dir.y` is
negative; any returned point is `origin + t • dir` and lies on the plane
`Y = 0`. -/
theorem screen_to_floor_spec (o d : Vec3 ℝ) :
    (screen_to_floor_from_ray o d = none ↔
      |d.y| < 1/1000000 ∨ -o.y / d.y < 0) ∧
    (∀ p, screen_to_floor_from_ray o d = some p →
      p = o + (-o.y / d.y) • d ∧ p.y = 0) := by
  unfold screen_to_floor_from_ray
  by_cases h1 : |d.y| < 1/1000000
  · rw [if_pos h1]
    exact ⟨iff_of_true rfl (Or.inl h1), fun p hp => absurd hp (by simp)⟩
  · rw [if_neg h1]
    dsimp only
    by_cases h2 : -o.y / d.y < 0
    · rw [if_pos h2]
      exact ⟨iff_of_true rfl (Or.inr h2), fun p hp => absurd hp (by simp)⟩
    · rw [if_neg h2]
      refine ⟨iff_of_false (by simp) ?_, ?_⟩
      · rintro (hc | hc)
        exacts [h1 hc, h2 hc]
      · intro p hp
        injection hp with hp
        subst hp
        refine ⟨rfl, ?_⟩
        have hdy : d.y ≠ 0 := by
          intro h0
          exact h1 (by rw [h0]; norm_num)
        show o.y + (-o.y / d.y) * d.y = 0
        field_simp

/-- Witness for C2: a horizontal ray over the floor yields no hit. -/
theorem screen_to_floor_spec_witness :
    screen_to_floor_from_ray (⟨0, 10, 0⟩ : Vec3 ℝ) ⟨1, 0, 0⟩ = none :=
  (screen_to_floor_spec _ _).1.mpr
    (Or.inl (by show |(0 : ℝ)| < 1/1000000; norm_num))

/-- C9: when the ray origin lies strictly inside the sphere (and the
direction is nonzero), the smaller quadratic root is negative, so
`_ray_sphere_test` returns the positive exit-point root, and picking a
single such object from inside its bounding sphere selects it. -/
theorem ray_from_inside_hits (o d c : Vec3 ℝ) (r : ℝ)
    (hd : 0 < Vec3.dot d d)
    (hin : Vec3.dot (o - c) (o - c) < r * r) :
    ∃ t1 t2 : ℝ,
      t1 = (-(2 * Vec3.dot (o - c) d) -
          Real.sqrt (2 * Vec3.dot (o - c) d * (2 * Vec3.dot (o - c) d) -
            4 * Vec3.dot d d * (Vec3.dot (o - c) (o - c) - r * r))) /
        (2 * Vec3.dot d d) ∧
      t2 = (-(2 * Vec3.dot (o - c) d) +
          Real.sqrt (2 * Vec3.dot (o - c) d * (2 * Vec3.dot (o - c) d) -
            4 * Vec3.dot d d * (Vec3.dot (o - c) (o - c) - r * r))) /
        (2 * Vec3.dot d d) ∧
      t1 < 0 ∧ 0 < t2 ∧
      ray_sphere_test o d c r = some t2 ∧
      ∀ obj : SceneObject ℝ, obj.positionGet = c → pickRadius obj = r →
        pick_from_ray o d [obj] = 0 := by
  set a := Vec3.dot d d with ha
  set b := 2 * Vec3.dot (o - c) d with hb
  set cc := Vec3.dot (o - c) (o - c) - r * r with hcc
  have hcneg : cc < 0 := sub_neg.mpr hin
  set disc := b * b - 4 * a * cc with hdisc
  have hdiscpos : b * b < disc := by
    rw [hdisc]
    nlinarith
  have hdisc0 : 0 ≤ disc := le_trans (mul_self_nonneg b) (le_of_lt hdiscpos)
  have hsq : |b| < Real.sqrt disc := by
    have h1 : Real.sqrt (b * b) < Real.sqrt disc :=
      Real.sqrt_lt_sqrt (mul_self_nonneg b) hdiscpos
    rwa [Real.sqrt_mul_self_eq_abs] at h1
  have h2a : (0 : ℝ) < 2 * a := by linarith
  have ht1 : (-b - Real.sqrt disc) / (2 * a) < 0 := by
    apply div_neg_of_neg_of_pos _ h2a
    have hnb : -b ≤ |b| := neg_le_abs b
    linarith
  have ht2 : 0 < (-b + Real.sqrt disc) / (2 * a) := by
    apply div_pos _ h2a
    have hnb : b ≤ |b| := le_abs_self b
    linarith
  have htest : ray_sphere_test o d c r = some ((-b + Real.sqrt disc) / (2 * a)) := by
    unfold ray_sphere_test
    dsimp only
    rw [← hb, ← hcc, ← ha, ← hdisc]
    rw [if_neg (not_lt.mpr hdisc0)]
    rw [if_neg (not_lt.mpr (le_of_lt ht1))]
    rw [if_pos ht2]
  refine ⟨_, _, rfl, rfl, ht1, ht2, htest, ?_⟩
  intro obj hc hr
  have hhit : pickHit o d obj = some ((-b + Real.sqrt disc) / (2 * a)) := by
    unfold pickHit
    rw [hc, hr]
    exact htest
  show pickAux o d [obj] ⊤ (-1) 0 = 0
  simp [pickAux, hhit, EReal.coe_lt_top]

/-- Witness for C9: the camera at the center of a small object's bounding
sphere still picks it. -/
theorem ray_from_inside_hits_witness :
    pick_from_ray ⟨0, 0, 0⟩ ⟨1, 0, 0⟩
      [⟨"ball", "", "cube",
        [⟨⟨⟨0, 0, 0⟩, ⟨1, 0, 0, 0⟩, ⟨1/10, 1/10, 1/10⟩⟩, 1, ⟨1, 1, 1⟩, none⟩],
        false, 1, ⟨1, 1, 1⟩, 1, "Scene"⟩] = 0 := by
  obtain ⟨t1, t2, _, _, _, _, _, hpick⟩ :=
    ray_from_inside_hits ⟨0, 0, 0⟩ ⟨1, 0, 0⟩ ⟨0, 0, 0⟩ 5
      (by norm_num [Vec3.dot])
      (by norm_num [Vec3.dot, Vec3.sub_def])
  apply hpick
  · rfl
  · show max (max (max (1/10 : ℝ) (1/10)) (1/10) * 50) 5 = 5
    norm_num

/-- `_ray_sphere_test` only ever reports strictly positive parameters. -/
theorem ray_sphere_test_pos (o d c : Vec3 ℝ) (r t : ℝ)
    (h : ray_sphere_test o d c r = some t) : 0 < t := by
  unfold ray_sphere_test at h
  dsimp only at h
  split_ifs at h
  all_goals first
    | exact Option.noConfusion h
    | (injection h with h; subst h; assumption)

/-- Invariant of the `_pick_from_ray` loop: starting from best
distance `bT`, best index `bI` and position counter `i`, the loop either
keeps `bI` (no hit beats `bT`) or returns the position of a hit that
beats `bT` and is minimal among all hits of the remaining list. -/
theorem pickAux_spec (o d : Vec3 ℝ) (l : List (SceneObject ℝ)) :
    ∀ (bT : EReal) (bI : ℤ) (i : ℕ),
      (pickAux o d l bT bI i = bI ∧
        ∀ obj ∈ l, ∀ t : ℝ, pickHit o d obj = some t → ¬((t : EReal) < bT)) ∨
      (∃ j : ℕ, ∃ hj : j < l.length, ∃ t : ℝ,
        pickAux o d l bT bI i = ((i + j : ℕ) : ℤ) ∧
        pickHit o d (l.get ⟨j, hj⟩) = some t ∧ (t : EReal) < bT ∧
        ∀ obj ∈ l, ∀ s : ℝ, pickHit o d obj = some s → t ≤ s) := by
  induction l with
  | nil =>
    intro bT bI i
    left
    exact ⟨rfl, by simp⟩
  | cons obj rest ih =>
    intro bT bI i
    rcases hh : pickHit o d obj with _ | t0
    · have hstep : pickAux o d (obj :: rest) bT bI i =
          pickAux o d rest bT bI (i + 1) := by
        simp [pickAux, hh]
      rcases ih bT bI (i + 1) with ⟨he, hnone⟩ | ⟨j, hj, t, he, hhit, hlt, hmin⟩
      · left
        refine ⟨hstep.trans he, ?_⟩
        intro x hx s hs
        rcases List.mem_cons.mp hx with rfl | hx'
        · rw [hh] at hs; exact absurd hs (by simp)
        · exact hnone x hx' s hs
      · right
        refine ⟨j + 1, by simpa using Nat.succ_lt_succ hj, t, ?_, ?_, hlt, ?_⟩
        · rw [hstep, he]; omega
        · simpa using hhit
        · intro x hx s hs
          rcases List.mem_cons.mp hx with rfl | hx'
          · rw [hh] at hs; exact absurd hs (by simp)
          · exact hmin x hx' s hs
    · by_cases hlt0 : (t0 : EReal) < bT
      · have hstep : pickAux o d (obj :: rest) bT bI i =
            pickAux o d rest (t0 : EReal) (i : ℤ) (i + 1) := by
          simp [pickAux, hh, hlt0]
        rcases ih (t0 : EReal) (i : ℤ) (i + 1) with
          ⟨he, hnone⟩ | ⟨j, hj, t, he, hhit, hlt, hmin⟩
        · right
          refine ⟨0, by simp, t0, ?_, ?_, hlt0, ?_⟩
          · rw [hstep, he]; omega
          · simpa using hh
          · intro x hx s hs
            rcases List.mem_cons.mp hx with rfl | hx'
            · rw [hh] at hs; injection hs with hs; exact le_of_eq hs
            · have hns := hnone x hx' s hs
              have : (t0 : EReal) ≤ (s : EReal) := not_lt.mp hns
              exact_mod_cast this
        · right
          refine ⟨j + 1, by simpa using Nat.succ_lt_succ hj, t,
            ?_, ?_, lt_trans hlt hlt0, ?_⟩
          · rw [hstep, he]; omega
          · simpa using hhit
          · intro x hx s hs
            rcases List.mem_cons.mp hx with rfl | hx'
            · rw [hh] at hs; injection hs with hs; subst hs
              exact le_of_lt (by exact_mod_cast hlt)
            · exact hmin x hx' s hs
      · have hstep : pickAux o d (obj :: rest) bT bI i =
            pickAux o d rest bT bI (i + 1) := by
          simp [pickAux, hh, hlt0]
        rcases ih bT bI (i + 1) with ⟨he, hnone⟩ | ⟨j, hj, t, he, hhit, hlt, hmin⟩
        · left
          refine ⟨hstep.trans he, ?_⟩
          intro x hx s hs
          rcases List.mem_cons.mp hx with rfl | hx'
          · rw [hh] at hs; injection hs with hs; subst hs; exact hlt0
          · exact hnone x hx' s hs
        · right
          refine ⟨j + 1, by simpa using Nat.succ_lt_succ hj, t, ?_, ?_, hlt, ?_⟩
          · rw [hstep, he]; omega
          · simpa using hhit
          · intro x hx s hs
            rcases List.mem_cons.mp hx with rfl | hx'
            · rw [hh] at hs; injection hs with hs; subst hs
              have hbt : bT ≤ (t0 : EReal) := not_lt.mp hlt0
              exact le_of_lt (by exact_mod_cast lt_of_lt_of_le hlt hbt)
            · exact hmin x hx' s hs

/-- C1: `_pick_from_ray` tests each object's bounding sphere (centered at
its position, radius `max(max(sx,sy,sz)*50, 5)`), every reported hit has
a strictly positive parameter, the sentinel `-1` is returned exactly when
no object is hit, and any returned index is a hit whose parameter is
least among all hits.  `pick_object` and `pick_object_from_screen` both
delegate to `_pick_from_ray` with their respective camera rays. -/
theorem pick_object_nearest (o d : Vec3 ℝ) (objs : List (SceneObject ℝ)) :
    (∀ obj : SceneObject ℝ, pickHit o d obj =
      ray_sphere_test o d obj.positionGet
        (max (max (max obj.scaleGet.x obj.scaleGet.y) obj.scaleGet.z * 50) 5)) ∧
    (∀ obj ∈ objs, ∀ t : ℝ, pickHit o d obj = some t → 0 < t) ∧
    (pick_from_ray o d objs = -1 ∨
      ∃ i : ℕ, pick_from_ray o d objs = (i : ℤ)) ∧
    (pick_from_ray o d objs = -1 ↔ ∀ obj ∈ objs, pickHit o d obj = none) ∧
    (∀ i : ℕ, pick_from_ray o d objs = (i : ℤ) →
      ∃ hi : i < objs.length, ∃ t : ℝ,
        pickHit o d (objs.get ⟨i, hi⟩) = some t ∧ 0 < t ∧
        ∀ obj ∈ objs, ∀ s : ℝ, pickHit o d obj = some s → t ≤ s) := by
  refine ⟨fun obj => rfl,
    fun obj _ t ht => ray_sphere_test_pos _ _ _ _ _ ht, ?_, ?_, ?_⟩
  · rcases pickAux_spec o d objs ⊤ (-1) 0 with
      ⟨he, _⟩ | ⟨j, _, _, he, _, _, _⟩
    · exact Or.inl he
    · exact Or.inr ⟨0 + j, he⟩
  · constructor
    · intro h1 obj hobj
      rcases pickAux_spec o d objs ⊤ (-1) 0 with
        ⟨he, hnone⟩ | ⟨j, hj, t, he, hhit, hlt, hmin⟩
      · rcases hx : pickHit o d obj with _ | t
        · rfl
        · exact absurd (EReal.coe_lt_top t) (hnone obj hobj t hx)
      · have hcontr : ((0 + j : ℕ) : ℤ) = -1 := by rw [← he]; exact h1
        exact absurd hcontr (by omega)
    · intro hall
      rcases pickAux_spec o d objs ⊤ (-1) 0 with
        ⟨he, _⟩ | ⟨j, hj, t, he, hhit, hlt, hmin⟩
      · exact he
      · rw [hall (objs.get ⟨j, hj⟩) (List.get_mem objs j hj)] at hhit
        exact Option.noConfusion hhit
  · intro i hI
    rcases pickAux_spec o d objs ⊤ (-1) 0 with
      ⟨he, hnone⟩ | ⟨j, hj, t, he, hhit, hlt, hmin⟩
    · have hcontr : (-1 : ℤ) = (i : ℤ) := by rw [← he]; exact hI
      exact absurd hcontr (by omega)
    · have hij : i = j := by
        have h2 : ((0 + j : ℕ) : ℤ) = (i : ℤ) := by rw [← he]; exact hI
        omega
      subst hij
      exact ⟨hj, t, hhit, ray_sphere_test_pos _ _ _ _ _ hhit, hmin⟩

/-- Witness for C1: an empty scene picks the sentinel `-1`. -/
theorem pick_object_nearest_witness :
    pick_from_ray ⟨0, 0, 0⟩ ⟨1, 0, 0⟩ [] = -1 :=
  (pick_object_nearest ⟨0, 0, 0⟩ ⟨1, 0, 0⟩ []).2.2.2.1.mpr (by simp)

/-- Counterexample for C7 as stated: `SceneObject.__init__` stores its
`alpha` argument unclamped (only the setter clamps), so an object loaded
from a JSON entry with `"alpha": 1.5` has alpha `1.5`, and `save_scene`
(whose condition is `alpha < 1.0`) omits the alpha key for it even
though its alpha does not equal `1.0`. -/
theorem alpha_above_one_omitted_cex :
    (saveEntry (⟨"ghost", "", "cube", [], false, 1, ⟨1, 1, 1⟩, 3/2,
      "Scene"⟩ : SceneObject ℚ)).alpha = none ∧
    (⟨"ghost", "", "cube", [], false, 1, ⟨1, 1, 1⟩, 3/2,
      "Scene"⟩ : SceneObject ℚ).alphaGet ≠ 1 := by
  constructor
  · show (if (3/2 : ℚ) < 1 then some (pyRound 3 (3/2 : ℚ)) else none) = none
    rw [if_neg (by norm_num)]
  · show (3/2 : ℚ) ≠ 1
    norm_num
